import Mathlib

/-!
Verification of the browser chess client in `raunaksahahere/simple-chess-web`.

The repository holds two near-duplicate client scripts:
* `src/script.js` (modelled below in namespace `Main`), and
* `src/frontend/script.js` (modelled in namespace `Frontend`).

Both are embedded shallowly.  The external chess rules library (chess.js) is
the black box the spec describes; it is modelled by the `Engine` structure,
whose fields are the exact queries the client scripts perform on a `Chess`
instance (`board()`, `turn()`, `moves({square, verbose})`, `move({...})`).
A chess.js instance is identified with its current FEN string: the client
only ever replaces it wholesale (`game.load(fen)`) or, in the `Frontend`
variant, advances it through `game.move`.
-/

/-- A chess.js piece as the client sees it: `piece.color` is the character
`'w'` or `'b'` and `piece.type` is a lowercase piece letter such as `'p'`. -/
structure Piece where
  color : Char
  ptype : Char
deriving DecidableEq

/-- One verbose move record as returned by chess.js `game.move(...)`:
the resulting position, the from/to squares, and the optional promotion
letter. -/
structure MoveRecord where
  newFen : String
  mfrom : String
  mto : String
  promotion : Option Char
deriving DecidableEq

/-- The rules-engine black box (chess.js), restricted to the queries the two
client scripts perform.  A game instance is identified with its FEN string.
`boardOf fen r f` is `game.board()[r][f]` (row 0 = rank 8), `turnOf` is
`game.turn()` (`'w'` or `'b'`), `movesFrom fen sq` lists the `.to` squares of
`game.moves({square: sq, verbose: true})`, and `tryMove fen from to promo`
is `game.move({from, to, promotion})`, `none` on an illegal move. -/
structure Engine where
  boardOf : String → Nat → Nat → Option Piece
  turnOf : String → Char
  movesFrom : String → String → List String
  tryMove : String → String → String → Char → Option MoveRecord

/-- The mutable module-level client state shared by both script variants:
`game` (the chess.js instance, by its FEN, `none` before `initGame`),
`currentUsername`, `currentRoomId`, `selectedSquare`, and the two DOM
seat-name texts (`whiteName.textContent` / `blackName.textContent`, the
placeholder being `"-"`). -/
structure ClientState where
  game : Option String
  currentUsername : String
  currentRoomId : String
  selectedSquare : Option String
  whiteNameText : String
  blackNameText : String
deriving DecidableEq

/-- The payload of an outbound `player_move` socket event. -/
structure PlayerMove where
  username : String
  room_id : String
  fen : String
  move_uci : String
deriving DecidableEq

/-- The observable outcome of one click: the next client state, the list of
`player_move` events emitted, and the error notices shown. -/
structure ClickResult where
  state : ClientState
  emitted : List PlayerMove
  notices : List String
deriving DecidableEq

/-- JavaScript `Array.prototype.indexOf` on a string array: the index of the
first occurrence, `-1` when absent. -/
def jsIndexOf : List String → String → Int
  | [], _ => -1
  | a :: as, x =>
      if a = x then 0
      else
        let r := jsIndexOf as x
        if r = -1 then -1 else r + 1

/-- JavaScript `String.prototype.toLowerCase()`, restricted to its behavior
on the ASCII usernames this client compares (character-wise lowering). -/
def jsToLower (s : String) : String :=
  String.mk (s.toList.map Char.toLower)

/-- `clearSelection()`: resets `selectedSquare` to `null` (the DOM class
removal it also performs is presentation-only). -/
def clearSelection (cs : ClientState) : ClientState :=
  { cs with selectedSquare := none }

/-- `selectSquare(square)`: `clearSelection()` followed by
`selectedSquare = square` (the highlighting it performs is
presentation-only). -/
def selectSquare (cs : ClientState) (square : String) : ClientState :=
  { cs with selectedSquare := some square }

/-- `square.charCodeAt(0) - 97`: the 0-based file index of an algebraic
square string. -/
def fileIdxOf (sq : String) : Nat :=
  (sq.toList.getD 0 ' ').toNat - 97

/-- `parseInt(square[1])`: the 1-based rank digit of an algebraic square
string. -/
def rankDigitOf (sq : String) : Nat :=
  (sq.toList.getD 1 ' ').toNat - 48

/-- A well-formed algebraic square string `"a1"`–`"h8"`: two characters,
file letter in range, rank digit in range. -/
def isValidSquare (sq : String) : Bool :=
  sq.length == 2 && fileIdxOf sq < 8 &&
    1 ≤ rankDigitOf sq && rankDigitOf sq ≤ 8 &&
    97 ≤ (sq.toList.getD 0 ' ').toNat

/-- The message shown by the reserved-identity gate in both variants. -/
def aiAutoMsg : String := "AI is playing automatically. Please wait for your move."

/-- The `pieces` glyph table keyed by `piece.color + piece.type.toUpperCase()`. -/
def piecesTable : List (String × String) :=
  [("wP", "♙"), ("wR", "♖"), ("wN", "♘"), ("wB", "♗"), ("wQ", "♕"), ("wK", "♔"),
   ("bP", "♟"), ("bR", "♜"), ("bN", "♞"), ("bB", "♝"), ("bQ", "♛"), ("bK", "♚")]

/-- `pieces[piece.color + piece.type.toUpperCase()]`; `none` for a key the
table does not hold. -/
def pieceGlyph (p : Piece) : Option String :=
  piecesTable.lookup (String.mk [p.color, p.ptype.toUpper])

/-- One rendered board cell: its algebraic coordinate (`data-square`), its
light/dark classification, and the piece glyph it displays, if any. -/
structure Cell where
  square : String
  isLight : Bool
  glyph : Option String
deriving DecidableEq

namespace Main

/-- `src/script.js` `isPlayerBlack()`: seat texts are filtered for the `"-"`
placeholder; with fewer than two seated names the answer is `false`,
otherwise the client is Black exactly when `players.indexOf(currentUsername)`
is `1`. -/
def isPlayerBlack (username wT bT : String) : Bool :=
  let players := [wT, bT].filter (· ≠ "-")
  if players.length < 2 then false
  else jsIndexOf players username == 1

/-- `src/script.js` `rankIndices`: the order in which `boardState` rows are
drawn, reversed for a Black-seated viewer. -/
def rankIndices (isBlack : Bool) : List Nat :=
  if isBlack then [7, 6, 5, 4, 3, 2, 1, 0] else [0, 1, 2, 3, 4, 5, 6, 7]

/-- `src/script.js` `fileIndices`: the order in which columns are drawn,
reversed for a Black-seated viewer. -/
def fileIndices (isBlack : Bool) : List Nat :=
  if isBlack then [7, 6, 5, 4, 3, 2, 1, 0] else [0, 1, 2, 3, 4, 5, 6, 7]

/-- The body of the double loop in `src/script.js` `renderBoard`: the cell built
at physical grid row `r`, column `f`.  `rankIdx`/`fileIdx` are the board
indices `rankIndices[r]`/`fileIndices[f]`; the cell is light when
`(rankIdx + fileIdx) % 2 === 0`; its `data-square` is
`String.fromCharCode(97 + fileIdx) + (8 - rankIdx)`; its glyph comes from
`boardState[rankIdx][fileIdx]`. -/
def cellAt (E : Engine) (fen : String) (isBlack : Bool) (r f : Nat) : Cell :=
  let rankIdx := (rankIndices isBlack).getD r 0
  let fileIdx := (fileIndices isBlack).getD f 0
  { square := String.mk [Char.ofNat (97 + fileIdx)] ++ toString (8 - rankIdx)
    isLight := (rankIdx + fileIdx) % 2 == 0
    glyph := (E.boardOf fen rankIdx fileIdx).bind pieceGlyph }

/-- `src/script.js` `renderBoard()`: recomputes `isPlayerBlack()` on every
call and emits the 64 cells in row-major physical order. -/
def renderBoard (E : Engine) (fen username wT bT : String) : List Cell :=
  let isBlack := isPlayerBlack username wT bT
  (List.range 8).flatMap fun r => (List.range 8).map fun f => cellAt E fen isBlack r f

/-- `src/script.js` `sendMoveToServer(from, to)`: builds the UCI string
`from + to`, appends `'q'` when the piece standing on `from` is a pawn whose
destination rank index `parseInt(to[1]) - 1` is the far rank for its color,
and emits the `player_move` payload with the current FEN. -/
def sendMoveToServer (E : Engine) (fen username roomId dfrom dto : String) :
    PlayerMove :=
  let moveUci := dfrom ++ dto
  let piece := E.boardOf fen (8 - rankDigitOf dfrom) (fileIdxOf dfrom)
  let moveUci :=
    match piece with
    | some p =>
        if p.ptype = 'p' then
          let toRank := rankDigitOf dto - 1
          if (p.color = 'w' ∧ toRank = 7) ∨ (p.color = 'b' ∧ toRank = 0) then
            moveUci ++ "q"
          else moveUci
        else moveUci
    | none => moveUci
  { username := username, room_id := roomId, fen := fen, move_uci := moveUci }

/-- `src/script.js` `handleSquareClick(square)`, translated branch for
branch: the null-game/empty-username early return, the reserved-identity
gate (which also clears the selection), the waiting-for-opponent gate, the
turn gate, then the `Selected`/`Idle` dispatch using the piece at the
clicked square and `game.moves({square: selectedSquare, verbose: true})`. -/
def handleSquareClick (E : Engine) (cs : ClientState) (square : String) :
    ClickResult :=
  match cs.game with
  | none => { state := cs, emitted := [], notices := [] }
  | some fen =>
    if cs.currentUsername = "" then { state := cs, emitted := [], notices := [] }
    else if jsToLower cs.currentUsername = "raunak" then
      { state := clearSelection cs, emitted := [], notices := [aiAutoMsg] }
    else
      let isWhiteTurn := E.turnOf fen == 'w'
      let players := [cs.whiteNameText, cs.blackNameText].filter (· ≠ "-")
      if players.length < 2 then
        { state := cs, emitted := [], notices := ["Waiting for opponent"] }
      else
        let isPlayerWhite := jsIndexOf players cs.currentUsername == 0
        if isPlayerWhite != isWhiteTurn then
          { state := clearSelection cs, emitted := [], notices := ["Not your turn!"] }
        else
          let piece := E.boardOf fen (8 - rankDigitOf square) (fileIdxOf square)
          let owned :=
            match piece with
            | some p => (p.color == 'w' && isPlayerWhite) ||
                        (p.color == 'b' && !isPlayerWhite)
            | none => false
          match cs.selectedSquare with
          | some sel =>
            if sel = square then
              { state := clearSelection cs, emitted := [], notices := [] }
            else
              let possibleMoves := E.movesFrom fen sel
              if possibleMoves.contains square then
                { state := clearSelection cs
                  emitted := [sendMoveToServer E fen cs.currentUsername
                                cs.currentRoomId sel square]
                  notices := [] }
              else if owned then
                { state := selectSquare (clearSelection cs) square
                  emitted := [], notices := [] }
              else
                { state := clearSelection cs, emitted := []
                  notices := ["Invalid move"] }
          | none =>
            if owned then
              { state := selectSquare cs square, emitted := [], notices := [] }
            else if piece.isSome then
              { state := cs, emitted := [], notices := ["Not your piece!"] }
            else
              { state := cs, emitted := [], notices := [] }

/-- A sequence of clicks folded through `handleSquareClick`, with no
intervening server event. -/
def applyClicks (E : Engine) : ClientState → List String → ClientState
  | cs, [] => cs
  | cs, sq :: rest => applyClicks E (handleSquareClick E cs sq).state rest

/-- The game-status text derivation inside the `game_state` handler of `src/script.js`:
terminal status, waiting-for-opponent, the AI notice when the
side to move is the reserved identity and the local viewer is that
identity (all name comparisons via `toLowerCase()`), else the generic
in-progress text. -/
def gameStatusText (status : String) (players : List String) (turn : String)
    (viewer : String) : String :=
  if status = "ongoing" then
    if players.length = 2 then
      let isWhiteTurn := turn = "white"
      let isRaunakTurn :=
        (isWhiteTurn ∧ jsToLower (players.getD 0 "") = "raunak") ∨
        (¬ isWhiteTurn ∧ jsToLower (players.getD 1 "") = "raunak")
      if isRaunakTurn ∧ jsToLower viewer = "raunak" then
        "AI is calculating your move..."
      else "Game in progress"
    else "Waiting for opponent..."
  else "Game over: " ++ status

end Main

namespace Frontend

/-- `src/frontend/script.js` `renderBoard()`: no orientation input; rows are
drawn for `rank` from 7 down to 0 (`i` below is the loop step, so the row is
`7 - i`), the cell is light when `(rank + file) % 2 === 0`, its `data-square`
is `String.fromCharCode(97 + file) + (rank + 1)`, and its glyph comes from
`boardState[rank][file]`. -/
def renderBoard (E : Engine) (fen : String) : List Cell :=
  (List.range 8).flatMap fun i =>
    let rank := 7 - i
    (List.range 8).map fun file =>
      { square := String.mk [Char.ofNat (97 + file)] ++ toString (rank + 1)
        isLight := (rank + file) % 2 == 0
        glyph := (E.boardOf fen rank file).bind pieceGlyph : Cell }

/-- `src/frontend/script.js` `sendMoveToServer()`: reads the last verbose
history entry (the move `game.move` just applied, passed in here as `mr`),
builds `from + to` plus the lowercased promotion letter when present, and
emits the payload with the post-move FEN. -/
def sendMoveToServer (username roomId : String) (mr : MoveRecord) : PlayerMove :=
  let moveUci := mr.mfrom ++ mr.mto ++
    (match mr.promotion with
     | some c => String.mk [c.toLower]
     | none => "")
  { username := username, room_id := roomId, fen := mr.newFen, move_uci := moveUci }

/-- `src/frontend/script.js` `handleSquareClick(square)`: the same early
gates as the other variant except that the reserved-identity and turn gates
do not clear the selection and there is no waiting-for-opponent gate; while
`Selected` it calls `game.move({from, to, promotion: 'q'})`, which advances
the local game when legal; while `Idle` it selects any clicked square
unconditionally. -/
def handleSquareClick (E : Engine) (cs : ClientState) (square : String) :
    ClickResult :=
  match cs.game with
  | none => { state := cs, emitted := [], notices := [] }
  | some fen =>
    if cs.currentUsername = "" then { state := cs, emitted := [], notices := [] }
    else if jsToLower cs.currentUsername = "raunak" then
      { state := cs, emitted := [], notices := [aiAutoMsg] }
    else
      let isWhiteTurn := E.turnOf fen == 'w'
      let players := [cs.whiteNameText, cs.blackNameText].filter (· ≠ "-")
      let isPlayerWhite := jsIndexOf players cs.currentUsername == 0
      if isPlayerWhite != isWhiteTurn then
        { state := cs, emitted := [], notices := ["Not your turn!"] }
      else
        match cs.selectedSquare with
        | some sel =>
          if sel = square then
            { state := clearSelection cs, emitted := [], notices := [] }
          else
            match E.tryMove fen sel square 'q' with
            | some mr =>
              let cs' := { cs with game := some mr.newFen }
              { state := clearSelection cs'
                emitted := [sendMoveToServer cs.currentUsername cs.currentRoomId mr]
                notices := [] }
            | none =>
              { state := selectSquare (clearSelection cs) square
                emitted := [], notices := [] }
        | none =>
          { state := selectSquare cs square, emitted := [], notices := [] }

end Frontend

/-- A `{room_id, …}` entry of the room-listing response. -/
structure RoomInfo where
  room_id : String
deriving DecidableEq

/-- The outcome of the fetch of `/api/rooms` followed by `response.json()`:
`fail` when either step throws (network error or malformed body), otherwise
the parsed `data.rooms` field, which may itself be absent. -/
inductive FetchOutcome where
  | fail
  | ok (rooms : Option (List RoomInfo))
deriving DecidableEq

/-- `src/script.js` `getRandomRoom()`.  The two uses of `Math.random()` are
modelled by the `i` and `n` inputs: `Math.floor(Math.random() * len)` is a
uniform index `i % len`, and `Math.floor(Math.random() * 10000)` is
`n % 10000`.  With rooms available a random existing `room_id` is returned;
otherwise — including the caught fetch failure — a synthesized
`"room" + <0..9999>` identifier. -/
def getRandomRoom (outcome : FetchOutcome) (i n : Nat) : String :=
  match outcome with
  | .ok (some rooms) =>
      if rooms.length > 0 then
        (rooms.getD (i % rooms.length) ⟨""⟩).room_id
      else "room" ++ toString (n % 10000)
  | .ok none => "room" ++ toString (n % 10000)
  | .fail => "room" ++ toString (n % 10000)

/-- A concrete rules-engine instance matching chess.js on the handful of
positions the concrete scenarios below use: `"startFen"` is the initial
position (white to move, white pawn on e2 with moves e3/e4), `"blackFen"` a
position with black to move and a black pawn on e7 with moves e6/e5, and
`"promoFen"` a position with a white pawn on e7. -/
def testEngine : Engine where
  boardOf := fun fen r f =>
    if fen = "startFen" ∧ r = 6 ∧ f = 4 then some ⟨'w', 'p'⟩
    else if fen = "blackFen" ∧ r = 1 ∧ f = 4 then some ⟨'b', 'p'⟩
    else if fen = "promoFen" ∧ r = 1 ∧ f = 4 then some ⟨'w', 'p'⟩
    else none
  turnOf := fun fen => if fen = "blackFen" then 'b' else 'w'
  movesFrom := fun fen sq =>
    if fen = "startFen" ∧ sq = "e2" then ["e3", "e4"]
    else if fen = "blackFen" ∧ sq = "e7" then ["e6", "e5"]
    else if fen = "promoFen" ∧ sq = "e7" then ["e8"]
    else []
  tryMove := fun fen sel sq _promo =>
    if fen = "startFen" ∧ sel = "e2" ∧ sq = "e4" then
      some ⟨"afterE4Fen", "e2", "e4", none⟩
    else none

/-- Concrete scenario: seated participant `"alice"` (White seat, White to
move) with square e2 currently selected. -/
def csAliceSelected : ClientState :=
  ⟨some "startFen", "alice", "r1", some "e2", "alice", "bob"⟩

/-- Concrete scenario: seated participant `"alice"` (White seat, White to
move), nothing selected. -/
def csAliceIdle : ClientState :=
  ⟨some "startFen", "alice", "r1", none, "alice", "bob"⟩

/-- Concrete scenario: `"carol"` is not in the seat list `["alice", "bob"]`
and Black is to move. -/
def csSpectatorBlackTurn : ClientState :=
  ⟨some "blackFen", "carol", "r1", none, "alice", "bob"⟩

/-- Concrete scenario: `"carol"` is not in the seat list `["alice", "bob"]`
and White is to move. -/
def csSpectatorWhiteTurn : ClientState :=
  ⟨some "startFen", "carol", "r1", none, "alice", "bob"⟩

/-- Concrete scenario: the reserved identity typed as `"Raunak"`, nothing
selected. -/
def csRaunak : ClientState :=
  ⟨some "startFen", "Raunak", "r1", none, "Raunak", "bob"⟩

/-- Concrete scenario: the reserved identity typed as `"RAUNAK"`. -/
def csRaunakCaps : ClientState :=
  ⟨some "startFen", "RAUNAK", "r1", some "e2", "RAUNAK", "bob"⟩


/-- No branch of the `src/script.js` click handler touches the `game`
reference: every branch returns the incoming state with at most
`selectedSquare` changed. -/
theorem main_handleSquareClick_game (E : Engine) (cs : ClientState) (sq : String) :
    (Main.handleSquareClick E cs sq).state.game = cs.game := by
  unfold Main.handleSquareClick
  dsimp only
  repeat' split
  all_goals rfl

/-- `Array.prototype.indexOf` returns `-1` exactly on a missing element. -/
theorem jsIndexOf_eq_neg_one {l : List String} {x : String} (h : x ∉ l) :
    jsIndexOf l x = -1 := by
  induction l with
  | nil => rfl
  | cons a as ih =>
    simp only [List.mem_cons, not_or] at h
    simp [jsIndexOf, Ne.symm h.1, ih h.2]

/-- A username lowercasing to the reserved identity is in particular
non-empty, so the empty-username early return does not fire first. -/
theorem jsToLower_ne_empty {u : String} (h : jsToLower u = "raunak") : u ≠ "" := by
  intro he
  rw [he] at h
  exact absurd h (by decide)

/-- Indexing the row-major 8×8 grid produced by the render loops recovers
the loop-body cell. -/
theorem grid_get (g : Nat → Nat → Cell) (r f : Nat) (hr : r < 8) (hf : f < 8) :
    ((List.range 8).flatMap fun i => (List.range 8).map fun j => g i j).get?
        (8 * r + f) = some (g r f) := by
  interval_cases r <;> interval_cases f <;> rfl

/-- The Black-orientation cell at physical position `(r, f)` is exactly the
standard-orientation cell at the rank- and file-mirrored position. -/
theorem cellAt_flip (E : Engine) (fen : String) (r f : Nat) (hr : r < 8) (hf : f < 8) :
    Main.cellAt E fen true r f = Main.cellAt E fen false (7 - r) (7 - f) := by
  interval_cases r <;> interval_cases f <;> rfl

/-- A rendered cell is light exactly when the file index plus the top-down
rank index parsed back from its own algebraic coordinate is even, in either
orientation. -/
theorem cellAt_parity (E : Engine) (fen : String) (b : Bool) (r f : Nat)
    (hr : r < 8) (hf : f < 8) :
    (Main.cellAt E fen b r f).isLight =
      decide ((fileIdxOf (Main.cellAt E fen b r f).square +
               (8 - rankDigitOf (Main.cellAt E fen b r f).square)) % 2 = 0) := by
  cases b <;> interval_cases r <;> interval_cases f <;>
    (simp only [Main.cellAt]; rfl)

/-- C1 (counterexample): in `src/frontend/script.js`, a click on a legal
destination while a square is selected advances the authoritative game
through `game.move` before the server answers: from the start position with
e2 selected, clicking e4 replaces the position. -/
theorem C1_counterexample :
    (Frontend.handleSquareClick testEngine csAliceSelected "e4").state.game ≠
      csAliceSelected.game := by decide

/-- C1 (amended): for every rules engine, client state and click sequence
with no intervening server event, the `src/script.js` handler leaves the
authoritative game reference unchanged — no branch, including the
proposal-emitting branch, mutates or advances it.  (The `src/frontend`
variant violates this, per the counterexample.) -/
theorem C1_main_clicks_never_change_position (E : Engine) (cs : ClientState)
    (sqs : List String) : (Main.applyClicks E cs sqs).game = cs.game := by
  induction sqs generalizing cs with
  | nil => rfl
  | cons sq rest ih => rw [Main.applyClicks, ih, main_handleSquareClick_game]

/-- C2 (counterexample): a client whose username appears in neither seat
(`"carol"` vs seats `["alice", "bob"]`) is not rejected when Black is to
move: its first click selects the black pawn on e7 and its second click
emits a `player_move` proposal. -/
theorem C2_counterexample :
    ("carol" ∉ ["alice", "bob"]) ∧
    (Main.handleSquareClick testEngine csSpectatorBlackTurn "e7").state.selectedSquare =
      some "e7" ∧
    (Main.handleSquareClick testEngine
        (Main.handleSquareClick testEngine csSpectatorBlackTurn "e7").state
        "e6").emitted ≠ [] := by decide

/-- C2 (amended): a non-participant client (username in neither seat text)
is rejected locally only when fewer than two seats are filled (the waiting
gate) or when White is to move (its `indexOf` of `-1` makes it fail the
turn gate); in those cases no proposal is emitted and no selection stands.
When Black is to move the non-participant passes the turn gate, as the
counterexample shows. -/
theorem C2_nonparticipant_rejection (E : Engine) (cs : ClientState) (sq fen : String)
    (hg : cs.game = some fen)
    (hu : cs.currentUsername ≠ "")
    (hra : jsToLower cs.currentUsername ≠ "raunak")
    (hp : cs.currentUsername ∉ [cs.whiteNameText, cs.blackNameText].filter (· ≠ "-")) :
    (([cs.whiteNameText, cs.blackNameText].filter (· ≠ "-")).length < 2 →
      Main.handleSquareClick E cs sq =
        { state := cs, emitted := [], notices := ["Waiting for opponent"] })
    ∧ (¬ (([cs.whiteNameText, cs.blackNameText].filter (· ≠ "-")).length < 2) →
       E.turnOf fen = 'w' →
      (Main.handleSquareClick E cs sq).emitted = [] ∧
      (Main.handleSquareClick E cs sq).state.selectedSquare = none) := by
  constructor
  · intro hlen
    simp only [Main.handleSquareClick, hg, if_neg hu, if_neg hra, if_pos hlen]
  · intro hlen htw
    have hidx : jsIndexOf ([cs.whiteNameText, cs.blackNameText].filter (· ≠ "-"))
        cs.currentUsername = -1 := jsIndexOf_eq_neg_one hp
    simp only [Main.handleSquareClick, hg, if_neg hu, if_neg hra, if_neg hlen, hidx, htw]
    simp [clearSelection]

/-- C2 (witness): the spectator `"carol"` clicking e2 with White to move is
rejected: nothing emitted, nothing selected. -/
theorem C2_nonparticipant_rejection_witness :
    (Main.handleSquareClick testEngine csSpectatorWhiteTurn "e2").emitted = [] ∧
    (Main.handleSquareClick testEngine csSpectatorWhiteTurn "e2").state.selectedSquare =
      none :=
  (C2_nonparticipant_rejection testEngine csSpectatorWhiteTurn "e2" "startFen" rfl
    (by decide) (by decide) (by decide)).2 (by decide) rfl

/-- C3 (counterexample): in `src/frontend/script.js`, a click while `Idle`
selects the clicked square even when it holds no piece at all: e5 is empty
in the start position yet becomes selected. -/
theorem C3_counterexample :
    testEngine.boardOf "startFen" (8 - rankDigitOf "e5") (fileIdxOf "e5") = none ∧
    (Frontend.handleSquareClick testEngine csAliceIdle "e5").state.selectedSquare =
      some "e5" := by decide

/-- C3 (amended): in `src/script.js`, for a seated participant on their turn
clicking at `sq` while `Idle`, the handler transitions to `Selected(sq)`
exactly when the clicked square holds a piece of the seat color, and never
emits; a click on an empty or opponent square leaves the machine `Idle`.
(The `src/frontend` variant selects any square while `Idle`, per the
counterexample.) -/
theorem C3_idle_select_iff_own_piece (E : Engine) (cs : ClientState) (sq fen : String)
    (hg : cs.game = some fen)
    (hu : cs.currentUsername ≠ "")
    (hra : jsToLower cs.currentUsername ≠ "raunak")
    (hw : cs.whiteNameText ≠ "-") (hb : cs.blackNameText ≠ "-")
    (hseat : jsIndexOf [cs.whiteNameText, cs.blackNameText] cs.currentUsername = 0 ∨
             jsIndexOf [cs.whiteNameText, cs.blackNameText] cs.currentUsername = 1)
    (hturn : (jsIndexOf [cs.whiteNameText, cs.blackNameText] cs.currentUsername == 0) =
             (E.turnOf fen == 'w'))
    (hsel : cs.selectedSquare = none) :
    (Main.handleSquareClick E cs sq).state.selectedSquare =
      (match E.boardOf fen (8 - rankDigitOf sq) (fileIdxOf sq) with
       | some p =>
           if p.color = (if jsIndexOf [cs.whiteNameText, cs.blackNameText]
                            cs.currentUsername = 0
                         then 'w' else 'b')
           then some sq else none
       | none => none)
    ∧ (Main.handleSquareClick E cs sq).emitted = [] := by
  have hfil : [cs.whiteNameText, cs.blackNameText].filter (· ≠ "-") =
      [cs.whiteNameText, cs.blackNameText] := by
    simp [List.filter, hw, hb]
  simp only [Main.handleSquareClick, hg, hsel, hfil, if_neg hu, if_neg hra]
  simp only [List.length_cons, List.length_nil, Nat.reduceAdd, Nat.lt_irrefl, if_false,
    hturn, bne_self_eq_false, Bool.false_eq_true]
  cases hp : E.boardOf fen (8 - rankDigitOf sq) (fileIdxOf sq) with
  | none => simp [hsel]
  | some p =>
    rcases hseat with h0 | h1
    · have ht : (E.turnOf fen == 'w') = true := by rw [← hturn, h0]; rfl
      by_cases hc : p.color = 'w' <;>
        simp [ht, h0, hc, hsel, selectSquare]
    · have ht : (E.turnOf fen == 'w') = false := by rw [← hturn, h1]; rfl
      have h0' : ¬ (jsIndexOf [cs.whiteNameText, cs.blackNameText]
          cs.currentUsername = 0) := by
        rw [h1]; decide
      by_cases hc : p.color = 'b' <;>
        simp [ht, h0', hc, hsel, selectSquare]

/-- C3 (witness): `"alice"` (White seat, White to move, `Idle`) clicking her
pawn square e2 ends `Selected(e2)` with nothing emitted. -/
theorem C3_idle_select_iff_own_piece_witness :
    (Main.handleSquareClick testEngine csAliceIdle "e2").state.selectedSquare =
      some "e2" ∧
    (Main.handleSquareClick testEngine csAliceIdle "e2").emitted = [] := by
  have h := C3_idle_select_iff_own_piece testEngine csAliceIdle "e2" "startFen" rfl
    (by decide) (by decide) (by decide) (by decide) (Or.inl (by decide)) (by decide) rfl
  exact ⟨h.1.trans (by decide), h.2⟩

/-- C4 (counterexample): `src/frontend/script.js` renders without any
orientation input even though the viewer `"bob"` is seated Black: its
top-left cell carries square a8 (the standard orientation), where the
flipped orientation required by the claim — as the `src/script.js` renderer
produces for the same Black-seated viewer — carries h1. -/
theorem C4_counterexample :
    Main.isPlayerBlack "bob" "alice" "bob" = true ∧
    ((Frontend.renderBoard testEngine "startFen").get? 0).map Cell.square =
      some "a8" ∧
    ((Main.renderBoard testEngine "startFen" "bob" "alice" "bob").get? 0).map
      Cell.square = some "h1" := by decide

/-- C4 (amended): in `src/script.js`, the orientation is recomputed from the
seat texts inside every `renderBoard` call (no stored flag): a Black-seated
viewer (`isPlayerBlack` true) sees at physical cell `(r, f)` the
standard-orientation cell at the rank- and file-mirrored position
`(7-r, 7-f)`, any other viewer (White-seated or unassigned, i.e. seat index
other than 1) sees the standard orientation unflipped.  (The
`src/frontend` renderer ignores the seat entirely, per the
counterexample.) -/
theorem C4_orientation_flip (E : Engine) (fen u wT bT : String) (r f : Nat)
    (hr : r < 8) (hf : f < 8) :
    (Main.isPlayerBlack u wT bT = true →
      (Main.renderBoard E fen u wT bT).get? (8 * r + f) =
        some (Main.cellAt E fen false (7 - r) (7 - f)))
    ∧ (Main.isPlayerBlack u wT bT = false →
      (Main.renderBoard E fen u wT bT).get? (8 * r + f) =
        some (Main.cellAt E fen false r f))
    ∧ (jsIndexOf ([wT, bT].filter (· ≠ "-")) u ≠ 1 →
      Main.isPlayerBlack u wT bT = false) := by
  refine ⟨?_, ?_, ?_⟩
  · intro hb
    rw [Main.renderBoard]
    rw [hb, grid_get (fun i j => Main.cellAt E fen true i j) r f hr hf,
      cellAt_flip E fen r f hr hf]
  · intro hb
    rw [Main.renderBoard]
    rw [hb, grid_get (fun i j => Main.cellAt E fen false i j) r f hr hf]
  · intro h1
    unfold Main.isPlayerBlack
    dsimp only
    split
    · rfl
    · simpa using h1

/-- C4 (witness): for the Black-seated viewer `"bob"` the top-left rendered
cell is the mirrored standard cell at `(7, 7)` — the h1 corner. -/
theorem C4_orientation_flip_witness :
    (Main.renderBoard testEngine "startFen" "bob" "alice" "bob").get? (8 * 0 + 0) =
      some (Main.cellAt testEngine "startFen" false (7 - 0) (7 - 0)) :=
  (C4_orientation_flip testEngine "startFen" "bob" "alice" "bob" 0 0
    (by decide) (by decide)).1 (by decide)

/-- C5: the light/dark classification a rendered cell receives equals the
parity of (file index + top-down rank index) parsed back from the algebraic
coordinate the cell itself carries, for either orientation value; hence two
cells of any two orientations carrying the same algebraic square are
classified identically — flipping the orientation permutes physical
placement but never the light/dark identity of a square. -/
theorem C5_color_orientation_invariant (E : Engine) (fen : String) (b b' : Bool)
    (r f r' f' : Nat) (hr : r < 8) (hf : f < 8) (hr' : r' < 8) (hf' : f' < 8) :
    ((Main.cellAt E fen b r f).isLight =
      decide ((fileIdxOf (Main.cellAt E fen b r f).square +
               (8 - rankDigitOf (Main.cellAt E fen b r f).square)) % 2 = 0))
    ∧ ((Main.cellAt E fen b r f).square = (Main.cellAt E fen b' r' f').square →
       (Main.cellAt E fen b r f).isLight = (Main.cellAt E fen b' r' f').isLight) := by
  refine ⟨cellAt_parity E fen b r f hr hf, fun h => ?_⟩
  rw [cellAt_parity E fen b r f hr hf, cellAt_parity E fen b' r' f' hr' hf', h]

/-- C5 (witness): the Black-orientation top-left cell and the
standard-orientation bottom-right cell both carry square h1 and receive the
same classification. -/
theorem C5_color_orientation_invariant_witness :
    (Main.cellAt testEngine "startFen" true 0 0).isLight =
      (Main.cellAt testEngine "startFen" false 7 7).isLight :=
  (C5_color_orientation_invariant testEngine "startFen" true false 0 0 7 7
    (by decide) (by decide) (by decide) (by decide)).2 (by decide)

/-- C6: every emitted `move_uci`, in both script variants, is the
five-character source + destination + `"q"` exactly when the moved piece is
a pawn whose destination lies on the far rank for its color (rank 8 for a
white pawn, rank 1 for a black pawn — the opposing back rank); every other
move is encoded as exactly the four-character source + destination pair.
For `src/script.js` the handler computes the pawn/back-rank condition
itself from the piece on the source square.  For `src/frontend/script.js`
the promotion letter comes from the verbose record `mr` that `game.move`
(called with `promotion: 'q'`) returned: the black-box chess.js facts —
the record carries at most the requested lowercase letter `'q'`, and
carries it exactly when the move was a pawn reaching the far rank in the
pre-move position `fenPre` — enter as the hypotheses on `mr`. -/
theorem C6_promotion_encoding (E : Engine) (fen u room dfrom dto : String)
    (mr : MoveRecord) (fenPre : String)
    (hf : isValidSquare dfrom = true) (ht : isValidSquare dto = true)
    (hmf : isValidSquare mr.mfrom = true) (hmt : isValidSquare mr.mto = true)
    (hpq : mr.promotion = some 'q' ∨ mr.promotion = none)
    (hiff : mr.promotion = some 'q' ↔
      (∃ pc, E.boardOf fenPre (8 - rankDigitOf mr.mfrom) (fileIdxOf mr.mfrom) = some pc ∧
        pc.ptype = 'p' ∧
        ((pc.color = 'w' ∧ rankDigitOf mr.mto = 8) ∨
         (pc.color = 'b' ∧ rankDigitOf mr.mto = 1)))) :
    ((∃ pc, E.boardOf fen (8 - rankDigitOf dfrom) (fileIdxOf dfrom) = some pc ∧
        pc.ptype = 'p' ∧
        ((pc.color = 'w' ∧ rankDigitOf dto = 8) ∨ (pc.color = 'b' ∧ rankDigitOf dto = 1))) →
      (Main.sendMoveToServer E fen u room dfrom dto).move_uci = dfrom ++ dto ++ "q" ∧
      (Main.sendMoveToServer E fen u room dfrom dto).move_uci.length = 5)
    ∧ ((¬ ∃ pc, E.boardOf fen (8 - rankDigitOf dfrom) (fileIdxOf dfrom) = some pc ∧
        pc.ptype = 'p' ∧
        ((pc.color = 'w' ∧ rankDigitOf dto = 8) ∨ (pc.color = 'b' ∧ rankDigitOf dto = 1))) →
      (Main.sendMoveToServer E fen u room dfrom dto).move_uci = dfrom ++ dto ∧
      (Main.sendMoveToServer E fen u room dfrom dto).move_uci.length = 4)
    ∧ ((∃ pc, E.boardOf fenPre (8 - rankDigitOf mr.mfrom) (fileIdxOf mr.mfrom) = some pc ∧
        pc.ptype = 'p' ∧
        ((pc.color = 'w' ∧ rankDigitOf mr.mto = 8) ∨
         (pc.color = 'b' ∧ rankDigitOf mr.mto = 1))) →
      (Frontend.sendMoveToServer u room mr).move_uci = mr.mfrom ++ mr.mto ++ "q" ∧
      (Frontend.sendMoveToServer u room mr).move_uci.length = 5)
    ∧ ((¬ ∃ pc, E.boardOf fenPre (8 - rankDigitOf mr.mfrom) (fileIdxOf mr.mfrom) = some pc ∧
        pc.ptype = 'p' ∧
        ((pc.color = 'w' ∧ rankDigitOf mr.mto = 8) ∨
         (pc.color = 'b' ∧ rankDigitOf mr.mto = 1))) →
      (Frontend.sendMoveToServer u room mr).move_uci = mr.mfrom ++ mr.mto ∧
      (Frontend.sendMoveToServer u room mr).move_uci.length = 4) := by
  simp only [isValidSquare, Bool.and_eq_true, decide_eq_true_eq, beq_iff_eq] at hf ht hmf hmt
  have hlf : dfrom.length = 2 := hf.1.1.1.1
  have hlt : dto.length = 2 := ht.1.1.1.1
  have hd1 : 1 ≤ rankDigitOf dto := ht.1.1.2
  have hlmf : mr.mfrom.length = 2 := hmf.1.1.1.1
  have hlmt : mr.mto.length = 2 := hmt.1.1.1.1
  have hql : "q".length = 1 := rfl
  refine ⟨?_, ?_, ?_, ?_⟩
  · rintro ⟨pc, hpc, hp, hcond⟩
    have hcond' : (pc.color = 'w' ∧ rankDigitOf dto - 1 = 7) ∨
        (pc.color = 'b' ∧ rankDigitOf dto - 1 = 0) := by
      rcases hcond with ⟨h1, h2⟩ | ⟨h1, h2⟩
      · exact Or.inl ⟨h1, by omega⟩
      · exact Or.inr ⟨h1, by omega⟩
    simp only [Main.sendMoveToServer, hpc, if_pos hp, if_pos hcond']
    simp [String.length_append, hlf, hlt, hql]
  · intro hnot
    cases hpc : E.boardOf fen (8 - rankDigitOf dfrom) (fileIdxOf dfrom) with
    | none =>
      simp only [Main.sendMoveToServer, hpc]
      simp [String.length_append, hlf, hlt]
    | some pc =>
      by_cases hp : pc.ptype = 'p'
      · have hcond' : ¬ ((pc.color = 'w' ∧ rankDigitOf dto - 1 = 7) ∨
            (pc.color = 'b' ∧ rankDigitOf dto - 1 = 0)) := by
          rintro (⟨h1, h2⟩ | ⟨h1, h2⟩)
          · exact hnot ⟨pc, hpc, hp, Or.inl ⟨h1, by omega⟩⟩
          · exact hnot ⟨pc, hpc, hp, Or.inr ⟨h1, by omega⟩⟩
        simp only [Main.sendMoveToServer, hpc, if_pos hp, if_neg hcond']
        simp [String.length_append, hlf, hlt]
      · simp only [Main.sendMoveToServer, hpc, if_neg hp]
        simp [String.length_append, hlf, hlt]
  · intro hex
    have hp : mr.promotion = some 'q' := hiff.mpr hex
    have hlq : String.mk [Char.toLower 'q'] = "q" := by decide
    simp only [Frontend.sendMoveToServer, hp, hlq]
    simp [String.length_append, hlmf, hlmt, hql]
  · intro hnot
    have hp : mr.promotion = none := by
      rcases hpq with h | h
      · exact absurd (hiff.mp h) hnot
      · exact h
    simp only [Frontend.sendMoveToServer, hp]
    simp [String.length_append, hlmf, hlmt]

/-- C6 (witness): the white pawn e7→e8 move is encoded `"e7e8q"` by the
`src/script.js` path and by the `src/frontend` path fed the chess.js record
carrying `promotion: 'q'`; the non-promotion inputs a3→a4 (empty source
square) and the e2→e4 record are encoded as the bare four-character pairs
`"a3a4"` and `"e2e4"`. -/
theorem C6_promotion_encoding_witness :
    (Main.sendMoveToServer testEngine "promoFen" "alice" "r1" "e7" "e8").move_uci =
      "e7e8q" ∧
    (Main.sendMoveToServer testEngine "startFen" "alice" "r1" "a3" "a4").move_uci =
      "a3a4" ∧
    (Frontend.sendMoveToServer "alice" "r1"
      ⟨"afterPromoFen", "e7", "e8", some 'q'⟩).move_uci = "e7e8q" ∧
    (Frontend.sendMoveToServer "alice" "r1"
      ⟨"afterE4Fen", "e2", "e4", none⟩).move_uci = "e2e4" := by
  have hexPromo : ∃ pc, testEngine.boardOf "promoFen" (8 - rankDigitOf "e7")
      (fileIdxOf "e7") = some pc ∧ pc.ptype = 'p' ∧
      ((pc.color = 'w' ∧ rankDigitOf "e8" = 8) ∨ (pc.color = 'b' ∧ rankDigitOf "e8" = 1)) :=
    ⟨⟨'w', 'p'⟩, by decide, rfl, Or.inl ⟨rfl, by decide⟩⟩
  have hnotE4 : ¬ ∃ pc, testEngine.boardOf "startFen" (8 - rankDigitOf "e2")
      (fileIdxOf "e2") = some pc ∧ pc.ptype = 'p' ∧
      ((pc.color = 'w' ∧ rankDigitOf "e4" = 8) ∨ (pc.color = 'b' ∧ rankDigitOf "e4" = 1)) := by
    rintro ⟨pc, hpc, -, hc⟩
    rw [show testEngine.boardOf "startFen" (8 - rankDigitOf "e2") (fileIdxOf "e2") =
      some ⟨'w', 'p'⟩ from rfl] at hpc
    cases hpc
    revert hc
    decide
  have hnotA3 : ¬ ∃ pc, testEngine.boardOf "startFen" (8 - rankDigitOf "a3")
      (fileIdxOf "a3") = some pc ∧ pc.ptype = 'p' ∧
      ((pc.color = 'w' ∧ rankDigitOf "a4" = 8) ∨ (pc.color = 'b' ∧ rankDigitOf "a4" = 1)) := by
    rintro ⟨pc, hpc, -, -⟩
    rw [show testEngine.boardOf "startFen" (8 - rankDigitOf "a3") (fileIdxOf "a3") =
      none from rfl] at hpc
    cases hpc
  have hP := C6_promotion_encoding testEngine "promoFen" "alice" "r1" "e7" "e8"
    ⟨"afterPromoFen", "e7", "e8", some 'q'⟩ "promoFen" (by decide) (by decide)
    (by decide) (by decide) (Or.inl rfl) ⟨fun _ => hexPromo, fun _ => rfl⟩
  have hN := C6_promotion_encoding testEngine "startFen" "alice" "r1" "a3" "a4"
    ⟨"afterE4Fen", "e2", "e4", none⟩ "startFen" (by decide) (by decide)
    (by decide) (by decide) (Or.inr rfl)
    ⟨(fun h => nomatch h), fun h => absurd h hnotE4⟩
  refine ⟨?_, ?_, ?_, ?_⟩
  · exact ((hP.1 hexPromo).1).trans (by decide)
  · exact ((hN.2.1 hnotA3).1).trans (by decide)
  · exact ((hP.2.2.1 hexPromo).1).trans (by decide)
  · exact ((hN.2.2.2 hnotE4).1).trans (by decide)

/-- C7: for a username lowercasing to the reserved identity, in both script
variants every click at every square short-circuits: the only notice is the
moves-are-automatic message, nothing is emitted, and the state — the game
and the (empty, as always reachable for this identity) selection — is
returned unchanged. -/
theorem C7_reserved_identity_gate (E E2 : Engine) (cs : ClientState)
    (sq sq2 fen : String)
    (hg : cs.game = some fen)
    (hra : jsToLower cs.currentUsername = "raunak")
    (hsel : cs.selectedSquare = none) :
    Main.handleSquareClick E cs sq =
      { state := cs, emitted := [], notices := [aiAutoMsg] } ∧
    Frontend.handleSquareClick E2 cs sq2 =
      { state := cs, emitted := [], notices := [aiAutoMsg] } := by
  have hu : cs.currentUsername ≠ "" := jsToLower_ne_empty hra
  have hclear : clearSelection cs = cs := by
    cases cs
    simp_all [clearSelection]
  constructor
  · simp only [Main.handleSquareClick, hg, if_neg hu, if_pos hra, hclear]
  · simp only [Frontend.handleSquareClick, hg, if_neg hu, if_pos hra]

/-- C7 (witness): the reserved identity typed as `"Raunak"` clicking e2 in
either variant gets the automatic-play notice and an unchanged state. -/
theorem C7_reserved_identity_gate_witness :
    Main.handleSquareClick testEngine csRaunak "e2" =
      { state := csRaunak, emitted := [], notices := [aiAutoMsg] } ∧
    Frontend.handleSquareClick testEngine csRaunak "e2" =
      { state := csRaunak, emitted := [], notices := [aiAutoMsg] } :=
  C7_reserved_identity_gate testEngine testEngine csRaunak "e2" "e2" "startFen"
    rfl (by decide) rfl

/-- C8: from `Selected(a)`, clicking the same square `a` returns the machine
to `Idle` and emits no proposal, in both script variants, for any seated
state whose turn gate passes. -/
theorem C8_deselect_same_square (E : Engine) (cs : ClientState) (a fen : String)
    (hg : cs.game = some fen)
    (hu : cs.currentUsername ≠ "")
    (hra : jsToLower cs.currentUsername ≠ "raunak")
    (hw : cs.whiteNameText ≠ "-") (hb : cs.blackNameText ≠ "-")
    (hsel : cs.selectedSquare = some a)
    (hturn : (jsIndexOf [cs.whiteNameText, cs.blackNameText] cs.currentUsername == 0) =
             (E.turnOf fen == 'w')) :
    ((Main.handleSquareClick E cs a).state.selectedSquare = none ∧
     (Main.handleSquareClick E cs a).emitted = []) ∧
    ((Frontend.handleSquareClick E cs a).state.selectedSquare = none ∧
     (Frontend.handleSquareClick E cs a).emitted = []) := by
  have hfil : [cs.whiteNameText, cs.blackNameText].filter (· ≠ "-") =
      [cs.whiteNameText, cs.blackNameText] := by
    simp [List.filter, hw, hb]
  constructor
  · simp only [Main.handleSquareClick, hg, if_neg hu, if_neg hra, hfil, hsel]
    simp [hturn, clearSelection]
  · simp only [Frontend.handleSquareClick, hg, if_neg hu, if_neg hra, hfil, hsel]
    simp [hturn, clearSelection]

/-- C8 (witness): `"alice"` with e2 selected clicking e2 again deselects in
both variants with nothing emitted. -/
theorem C8_deselect_same_square_witness :
    ((Main.handleSquareClick testEngine csAliceSelected "e2").state.selectedSquare =
        none ∧
     (Main.handleSquareClick testEngine csAliceSelected "e2").emitted = []) ∧
    ((Frontend.handleSquareClick testEngine csAliceSelected "e2").state.selectedSquare =
        none ∧
     (Frontend.handleSquareClick testEngine csAliceSelected "e2").emitted = []) :=
  C8_deselect_same_square testEngine csAliceSelected "e2" "startFen" rfl
    (by decide) (by decide) (by decide) (by decide) rfl (by decide)

/-- C9: for every fetch outcome and random draws, `getRandomRoom` totally
returns an identifier: a member room id of the listing when rooms are
available, and otherwise — failed fetch, missing `rooms` field, or empty
list — a synthesized `"room" ++ n` with `n < 10000`; no path propagates an
exception. -/
theorem C9_quick_match_total (outcome : FetchOutcome) (i n : Nat) :
    (∀ rs, outcome = FetchOutcome.ok (some rs) → rs ≠ [] →
      ∃ r ∈ rs, getRandomRoom outcome i n = r.room_id)
    ∧ (outcome = FetchOutcome.fail ∨ outcome = FetchOutcome.ok none ∨
        outcome = FetchOutcome.ok (some []) →
      ∃ m, m < 10000 ∧ getRandomRoom outcome i n = "room" ++ toString m) := by
  constructor
  · rintro rs rfl hne
    have hlen : 0 < rs.length := List.length_pos.mpr hne
    have hlt : i % rs.length < rs.length := Nat.mod_lt _ hlen
    refine ⟨rs.getD (i % rs.length) ⟨""⟩, ?_, ?_⟩
    · rw [List.getD_eq_getElem rs ⟨""⟩ hlt]
      exact List.getElem_mem hlt
    · simp only [getRandomRoom, if_pos hlen]
  · rintro (rfl | rfl | rfl)
    · exact ⟨n % 10000, Nat.mod_lt _ (by decide), rfl⟩
    · exact ⟨n % 10000, Nat.mod_lt _ (by decide), rfl⟩
    · exact ⟨n % 10000, Nat.mod_lt _ (by decide), by simp [getRandomRoom]⟩

/-- C9 (witness): with one open room the listing entry is returned; on a
failed fetch a fallback identifier below 10000 is produced. -/
theorem C9_quick_match_total_witness :
    (∃ r ∈ [RoomInfo.mk "alpha"],
      getRandomRoom (FetchOutcome.ok (some [RoomInfo.mk "alpha"])) 3 0 = r.room_id) ∧
    (∃ m, m < 10000 ∧ getRandomRoom FetchOutcome.fail 0 12345 = "room" ++ toString m) :=
  ⟨(C9_quick_match_total (FetchOutcome.ok (some [RoomInfo.mk "alpha"])) 3 0).1
      [RoomInfo.mk "alpha"] rfl (by decide),
   (C9_quick_match_total FetchOutcome.fail 0 12345).2 (Or.inl rfl)⟩

/-- C10: the reserved-identity comparison is case-insensitive at both sites:
any username lowercasing to `"raunak"` is blocked by the manual-input gate
of `src/script.js` (automatic-play notice, selection cleared, nothing
emitted), and the game-status derivation treats a seated player with any
case variant of that name as the automated player, showing the
AI-is-calculating notice to that viewer whether seated White or Black. -/
theorem C10_case_insensitive_reserved_identity (E : Engine) (cs : ClientState)
    (sq fen opp : String)
    (hg : cs.game = some fen)
    (hra : jsToLower cs.currentUsername = "raunak") :
    Main.handleSquareClick E cs sq =
      { state := clearSelection cs, emitted := [], notices := [aiAutoMsg] } ∧
    Main.gameStatusText "ongoing" [cs.currentUsername, opp] "white" cs.currentUsername =
      "AI is calculating your move..." ∧
    Main.gameStatusText "ongoing" [opp, cs.currentUsername] "black" cs.currentUsername =
      "AI is calculating your move..." := by
  have hu : cs.currentUsername ≠ "" := jsToLower_ne_empty hra
  refine ⟨?_, ?_, ?_⟩
  · simp only [Main.handleSquareClick, hg, if_neg hu, if_pos hra]
  · simp [Main.gameStatusText, hra]
  · simp [Main.gameStatusText, hra]

/-- C10 (witness): the all-caps variant `"RAUNAK"` is blocked by the click
gate and is shown the AI status from either seat. -/
theorem C10_case_insensitive_reserved_identity_witness :
    Main.handleSquareClick testEngine csRaunakCaps "e2" =
      { state := clearSelection csRaunakCaps, emitted := [], notices := [aiAutoMsg] } ∧
    Main.gameStatusText "ongoing" ["RAUNAK", "bob"] "white" "RAUNAK" =
      "AI is calculating your move..." ∧
    Main.gameStatusText "ongoing" ["bob", "RAUNAK"] "black" "RAUNAK" =
      "AI is calculating your move..." :=
  C10_case_insensitive_reserved_identity testEngine csRaunakCaps "e2" "startFen" "bob"
    rfl (by decide)
